import Mathlib

/-!
Verification development for the rs-wgpu-learn repository (WebGPU-Study).

The repository has two source files:
* `src/rs-wgpu-learn/src/lib.rs` — a `WgpuApp` struct holding a surface,
  device, queue, surface configuration and render pipeline, with methods
  `new`, `render` and `resize`;
* `src/rs-wgpu-learn/src/main.rs` — a compute example: it uploads
  `[1.0, 2.0, 3.0, 4.0]` to a storage buffer, runs a compute shader over it,
  copies the storage buffer to a mappable result buffer and reads it back.

The WGSL shader sources (`source/compute.wgsl`, `source/triangle.wgsl`) and
the event-loop driver that calls `WgpuApp::render` are part of the
repository but are not available here; where a definition depends on them it
is modelled from the spec and says so in its doc comment.

32-bit float values are modelled as rationals (`ℚ`): every concrete value
appearing in the program (1.0 .. 4.0) and the doubling transform are exact
in IEEE binary32, so the rational model is faithful on the inputs involved.
-/

/-! ## Surface configuration and application state (lib.rs) -/

/-- The fields of `wgpu::SurfaceConfiguration` that the code reads or
writes: a pixel format (abstract handle), width and height in pixels, and a
present mode (abstract handle). `WgpuApp::resize` mutates `width` and
`height`; the other fields are set once at startup. -/
structure SurfaceConfiguration where
  format : Nat
  width : Nat
  height : Nat
  presentMode : Nat
deriving DecidableEq, Repr

/-- State of the `WgpuApp` struct from `lib.rs`. The surface, device, queue
and pipeline handles are opaque to the claims; `config` is the stored
surface configuration. `configures` counts how many times
`surface.configure(&device, &config)` has been applied, so that theorems can
observe device reconfiguration without modelling the device. -/
structure WgpuAppState where
  surface : Nat
  device : Nat
  queue : Nat
  config : SurfaceConfiguration
  pipeline : Nat
  configures : Nat
deriving DecidableEq, Repr

/-- The surface configuration built in `WgpuApp::new`, lines 49-56 of
`lib.rs`: `surface.get_default_config(&adapter, w.max(1), h.max(1))` with
`w`, `h` the window inner size. The format and present mode come from the
adapter defaults and are abstract here. -/
def initialConfig (winW winH : Nat) (format presentMode : Nat) :
    SurfaceConfiguration :=
  { format := format
    width := max winW 1
    height := max winH 1
    presentMode := presentMode }

/-- `WgpuApp::resize` (`lib.rs` lines 148-153): clamp the new size to a
minimum of 1 in each dimension, store it in the configuration, and re-apply
the configuration to the device. -/
def WgpuAppState.resize (app : WgpuAppState) (w h : Nat) : WgpuAppState :=
  { app with
    config := { app.config with width := max w 1, height := max h 1 }
    configures := app.configures + 1 }

/-! ## The render cycle (lib.rs, `WgpuApp::render`) -/

/-- The variants of `wgpu::SurfaceError` that `surface.get_current_texture`
can return (`lib.rs` line 101 propagates them with `?`). -/
inductive SurfaceError
  | timeout
  | outdated
  | lost
  | outOfMemory
  | other
deriving DecidableEq, Repr

/-- A `wgpu::Color`; the fields are double-precision floats in the source,
modelled as rationals. -/
structure GpuColor where
  r : ℚ
  g : ℚ
  b : ℚ
  a : ℚ
deriving DecidableEq, Repr

/-- `wgpu::Color::BLACK`. -/
def blackColor : GpuColor := { r := 0, g := 0, b := 0, a := 1 }

/-- The load operation of a render-pass color attachment:
`LoadOp::Clear(color)` or `LoadOp::Load`. -/
inductive LoadOp
  | clear (color : GpuColor)
  | load
deriving DecidableEq, Repr

/-- The observable steps of one render cycle, in the order `WgpuApp::render`
performs them. `draw vs ve is ie` records `pass.draw(vs..ve, is..ie)`. -/
inductive RenderEvent
  | createView
  | createEncoder
  | beginPass (op : LoadOp)
  | setPipeline
  | draw (vs ve is ie : Nat)
  | endPass
  | finishEncoder
  | submit
  | present
deriving DecidableEq, Repr

/-- Boolean discriminators for trace observations. -/
def isSubmit : RenderEvent → Bool
  | RenderEvent.submit => true
  | _ => false

def isPresent : RenderEvent → Bool
  | RenderEvent.present => true
  | _ => false

def isBeginPass : RenderEvent → Bool
  | RenderEvent.beginPass _ => true
  | _ => false

def isDraw : RenderEvent → Bool
  | RenderEvent.draw _ _ _ _ => true
  | _ => false

/-- The straight-line body of `WgpuApp::render` after a successful frame
acquisition (`lib.rs` lines 104-142): create the texture view, create a
command encoder, begin one render pass whose single color attachment is
cleared to `Color::BLACK` and stored, set the pipeline, draw vertices `0..3`
and instances `0..1`, end the pass, finish the encoder, submit the command
buffer to the queue, and present the acquired frame. -/
def renderTrace : List RenderEvent :=
  [RenderEvent.createView, RenderEvent.createEncoder] ++
    [RenderEvent.beginPass (LoadOp.clear blackColor), RenderEvent.setPipeline,
      RenderEvent.draw 0 3 0 1, RenderEvent.endPass] ++
    [RenderEvent.finishEncoder, RenderEvent.submit, RenderEvent.present]

/-- `WgpuApp::render` (`lib.rs` lines 99-145). The acquisition outcome of
`surface.get_current_texture()` is the parameter `acq`; on an error the `?`
operator returns it immediately and nothing else runs. On success the fixed
straight-line body `renderTrace` runs. The method never writes any field of
`self`, so the state is returned unchanged on both paths. -/
def WgpuAppState.render (app : WgpuAppState) (acq : Except SurfaceError Unit) :
    WgpuAppState × Except SurfaceError (List RenderEvent) :=
  match acq with
  | Except.error e => (app, Except.error e)
  | Except.ok _ => (app, Except.ok renderTrace)

/-- A concrete application state used to instantiate theorems. -/
def sampleApp : WgpuAppState :=
  { surface := 0
    device := 0
    queue := 0
    config := initialConfig 800 600 0 0
    pipeline := 0
    configures := 1 }

/-! ## The frame-loop driver (modelled from the spec) -/

/-- Re-apply the stored configuration to the device:
`surface.configure(&device, &config)` with the configuration unchanged. -/
def reconfigure (app : WgpuAppState) : WgpuAppState :=
  { app with configures := app.configures + 1 }

/-- Modelled from the spec: the event-loop driver that invokes
`WgpuApp::render` on each redraw signal belongs to the repository but is not
under `src/`. Per the spec (section 4.2), when frame acquisition fails with
`SurfaceLost` or `SurfaceOutdated` the caller reconfigures the surface and
retries the acquisition once; a repeated failure is reported upward as an
error for that tick. `acq1` and `acq2` are the outcomes of the first and
(if reached) second acquisition attempt. -/
def frameTick (app : WgpuAppState) (acq1 acq2 : Except SurfaceError Unit) :
    WgpuAppState × Except SurfaceError (List RenderEvent) :=
  match app.render acq1 with
  | (a, Except.ok t) => (a, Except.ok t)
  | (a, Except.error e) =>
    match e with
    | SurfaceError.lost => (reconfigure a).render acq2
    | SurfaceError.outdated => (reconfigure a).render acq2
    | _ => (a, Except.error e)

/-- Modelled from the spec: the event loop keeps running ticks; a failed
tick does not terminate the process. Runs one `frameTick` per element of
`ticks` and collects every tick outcome. -/
def runLoop (app : WgpuAppState)
    (ticks : List (Except SurfaceError Unit × Except SurfaceError Unit)) :
    WgpuAppState × List (Except SurfaceError (List RenderEvent)) :=
  match ticks with
  | [] => (app, [])
  | t :: rest =>
    let step := frameTick app t.1 t.2
    let next := runLoop step.1 rest
    (next.1, step.2 :: next.2)

/-! ## The compute path (main.rs) -/

/-- A GPU buffer as the compute example uses it: a byte size fixed at
creation and the list of 32-bit float elements currently stored in it
(4 bytes per element), modelled as rationals. -/
structure GPUBuffer where
  size : Nat
  contents : List ℚ
deriving DecidableEq, Repr

/-- `input.len() as u64 * std::mem::size_of::<f32>() as u64`
(`main.rs` line 48): the storage-buffer byte size, with the `u64`
arithmetic of the source made explicit. -/
def storageBufferSize (input : List ℚ) : Nat :=
  (input.length % 2 ^ 64) * 4 % 2 ^ 64

/-- The storage buffer of `main.rs` lines 46-51: sized to the input, not
mapped at creation (contents start as zeroes). -/
def mkStorageBuffer (input : List ℚ) : GPUBuffer :=
  { size := storageBufferSize input
    contents := List.replicate input.length 0 }

/-- `queue.write_buffer(&storage_buffer, 0, cast_slice(&input))`
(`main.rs` line 54): writes the whole input at offset 0. -/
def writeBuffer (buf : GPUBuffer) (data : List ℚ) : GPUBuffer :=
  { buf with contents := data }

/-- The storage buffer after the upload step: allocation plus queue write. -/
def uploadedStorage (input : List ℚ) : GPUBuffer :=
  writeBuffer (mkStorageBuffer input) input

/-- The result (readback) buffer of `main.rs` lines 57-62: usage
COPY_DST | MAP_READ, and `size: storage_buffer.size()` — exactly the
storage-buffer size. -/
def mkResultBuffer (input : List ℚ) : GPUBuffer :=
  { size := storageBufferSize input
    contents := [] }

/-- `input.len() as u32` (`main.rs` line 125): the X workgroup count passed
to `dispatch_workgroups`, a 32-bit value. -/
def dispatchCount (input : List ℚ) : Nat :=
  input.length % 2 ^ 32

/-- Modelled from the spec: `source/compute.wgsl` is referenced by
`include_str!` in `main.rs` but is not under `src/`. Per the spec it is a
doubling kernel with workgroup size 1x1x1 and one read/write storage buffer
at group 0 binding 0: invocation `x` doubles element `x`. -/
def computeKernel (x : ℚ) : ℚ := 2 * x

/-- Executing a dispatch of `n` workgroups along X (workgroup size 1):
invocations 0..n-1 each apply the kernel to their element; elements beyond
the dispatch range are untouched. -/
def runDispatch (n : Nat) (buf : GPUBuffer) : GPUBuffer :=
  { buf with
    contents := buf.contents.mapIdx fun i x => if i < n then computeKernel x else x }

/-- The commands recorded into the command encoder. -/
inductive ComputeCmd
  | setPipeline
  | setBindGroup (index : Nat)
  | dispatchWorkgroups (x y z : Nat)
  | copyBufferToBuffer (srcOffset dstOffset size : Nat)
deriving DecidableEq, Repr

def isDispatchCmd : ComputeCmd → Bool
  | ComputeCmd.dispatchWorkgroups _ _ _ => true
  | _ => false

def isSetBindGroupCmd : ComputeCmd → Bool
  | ComputeCmd.setBindGroup _ => true
  | _ => false

/-- The command sequence `run` records (`main.rs` lines 113-129): one
compute pass that sets the pipeline, sets the bind group at index 0 and
dispatches `(input.len() as u32, 1, 1)` workgroups, followed by
`copy_buffer_to_buffer(&storage_buffer, 0, &result_buffer, 0,
storage_buffer.size())`. -/
def encodeCommands (input : List ℚ) : List ComputeCmd :=
  [ComputeCmd.setPipeline, ComputeCmd.setBindGroup 0,
    ComputeCmd.dispatchWorkgroups (dispatchCount input) 1 1,
    ComputeCmd.copyBufferToBuffer 0 0 (storageBufferSize input)]

/-- Errors of the transfer path named by the spec. -/
inductive TransferError
  | sizeMismatch
  | mapFailed
deriving DecidableEq, Repr

/-- Modelled from the spec: the size validation of the device-side copy is
performed inside the GPU API dependency, not by code under `src/`. Per the
spec (section 4.4, `copy_to_readback`), the byte sizes of the two buffers
must match exactly or the operation fails with `SizeMismatch`; on success
the full contents of the source land in the destination. The source at
`main.rs` line 129 copies `storage_buffer.size()` bytes from offset 0 to
offset 0. -/
def copyToReadback (src dst : GPUBuffer) : Except TransferError GPUBuffer :=
  if src.size = dst.size then
    Except.ok { dst with contents := src.contents }
  else
    Except.error TransferError.sizeMismatch

/-- The error a `map_async` completion callback can report. -/
inductive MapError
  | deviceLost
  | bufferDestroyed
deriving DecidableEq, Repr

/-- What the read-back step can end in. -/
inductive ReadOutcome
  | ok (data : List ℚ)
  | err (e : TransferError)
  | panic
deriving DecidableEq, Repr

/-- The read-back sequence of `main.rs` lines 136-145. The `map_async`
completion callback only logs its argument (`info!("Mapping buffer ref
{:?}", res)`) — no branch of the code inspects it. After `device.poll` the
code unconditionally calls `get_mapped_range()`; if the mapping had failed
that call aborts the process (the GPU API panics on an unmapped buffer)
instead of returning an error value to the caller. -/
def readBack (mapResult : Except MapError Unit) (buf : GPUBuffer) : ReadOutcome :=
  match mapResult with
  | Except.ok _ => ReadOutcome.ok buf.contents
  | Except.error _ => ReadOutcome.panic

/-- The whole compute path of `run` (`main.rs` lines 43-145): upload the
input to the storage buffer, execute the dispatch recorded in the encoder,
copy the storage buffer to the result buffer, then map and read the result
buffer back. `mapResult` is the outcome the map completion callback
reports. -/
def runCompute (input : List ℚ) (mapResult : Except MapError Unit) : ReadOutcome :=
  let storage := uploadedStorage input
  let result := mkResultBuffer input
  let computed := runDispatch (dispatchCount input) storage
  match copyToReadback computed result with
  | Except.error e => ReadOutcome.err e
  | Except.ok filled => readBack mapResult filled

/-! ## Helper lemmas -/

lemma dispatchCount_eq (input : List ℚ) :
    dispatchCount input = input.length % 2 ^ 32 := rfl

lemma encode_filter_dispatch (input : List ℚ) :
    (encodeCommands input).filter isDispatchCmd
      = [ComputeCmd.dispatchWorkgroups (dispatchCount input) 1 1] := by
  simp [encodeCommands, isDispatchCmd, List.filter]

lemma encode_filter_bind_group (input : List ℚ) :
    (encodeCommands input).filter isSetBindGroupCmd = [ComputeCmd.setBindGroup 0] := by
  simp [encodeCommands, isSetBindGroupCmd, List.filter]

lemma dispatch_count_replicate_pow32 :
    dispatchCount (List.replicate (2 ^ 32) (0 : ℚ)) = 0 := by
  rw [dispatchCount_eq, List.length_replicate, Nat.mod_self]

/-! ## Claim theorems -/

/-- C1: the compute path on the fixed input `[1.0, 2.0, 3.0, 4.0]` — upload,
dispatch, device-side copy to the readback buffer, read back — hands the
host a sequence of the same length as the input whose values are the
elementwise doubling of the input, namely `[2.0, 4.0, 6.0, 8.0]`. -/
theorem compute_roundtrip_on_fixed_input :
    runCompute [1, 2, 3, 4] (Except.ok ()) = ReadOutcome.ok [2, 4, 6, 8] ∧
      ([(2 : ℚ), 4, 6, 8]).length = ([(1 : ℚ), 2, 3, 4]).length := by
  constructor
  · simp [runCompute, uploadedStorage, writeBuffer, mkStorageBuffer, mkResultBuffer,
      runDispatch, dispatchCount, storageBufferSize, copyToReadback, readBack,
      computeKernel, List.mapIdx_cons]
    norm_num
  · rfl

/-- C2: in every successful render cycle the event trace contains exactly
one submission and exactly one presentation, and the submission happens
before the presentation (the part of the trace strictly before the first
presentation already contains the one submission). -/
theorem render_submits_once_before_present :
    ∀ (app : WgpuAppState) (acq : Except SurfaceError Unit)
      (evts : List RenderEvent),
      (app.render acq).2 = Except.ok evts →
      evts.countP isSubmit = 1 ∧ evts.countP isPresent = 1 ∧
        (evts.takeWhile fun e => !isPresent e).countP isSubmit = 1 := by
  intro app acq evts h
  cases acq with
  | error e => simp [WgpuAppState.render] at h
  | ok u =>
    simp only [WgpuAppState.render, Except.ok.injEq] at h
    subst h
    refine ⟨rfl, rfl, rfl⟩

/-- Witness for C2 at one concrete successful cycle. -/
theorem render_submits_once_before_present_witness :
    renderTrace.countP isSubmit = 1 ∧ renderTrace.countP isPresent = 1 ∧
      (renderTrace.takeWhile fun e => !isPresent e).countP isSubmit = 1 :=
  render_submits_once_before_present sampleApp (Except.ok ()) renderTrace rfl

/-- C3: the surface configuration dimensions are always at least 1: the
initial configuration clamps the window size to a minimum of 1x1, and after
any `resize(w, h)` — including `(0, 0)` — the stored configuration has
width `max w 1` and height `max h 1`, both nonzero. -/
theorem surface_config_always_clamped :
    ∀ (winW winH fmt pm : Nat) (app : WgpuAppState) (w h : Nat),
      (initialConfig winW winH fmt pm).width = max winW 1 ∧
      (initialConfig winW winH fmt pm).height = max winH 1 ∧
      1 ≤ (initialConfig winW winH fmt pm).width ∧
      1 ≤ (initialConfig winW winH fmt pm).height ∧
      (app.resize w h).config.width = max w 1 ∧
      (app.resize w h).config.height = max h 1 ∧
      1 ≤ (app.resize w h).config.width ∧
      1 ≤ (app.resize w h).config.height := by
  intro winW winH fmt pm app w h
  refine ⟨rfl, rfl, ?_, ?_, rfl, rfl, ?_, ?_⟩ <;>
    first
      | exact Nat.le_max_right winW 1
      | exact Nat.le_max_right winH 1
      | exact Nat.le_max_right w 1
      | exact Nat.le_max_right h 1

/-- C4, counterexample: the workgroup count is passed through
`input.len() as u32`, so for an input of length `2 ^ 32` the recorded
dispatch is `(0, 1, 1)`, not `(N, 1, 1)` as the claim states for every
length `N`. -/
theorem dispatch_count_truncated_counterexample :
    (encodeCommands (List.replicate (2 ^ 32) (0 : ℚ))).filter isDispatchCmd
        = [ComputeCmd.dispatchWorkgroups 0 1 1] ∧
      ComputeCmd.dispatchWorkgroups 0 1 1 ≠
        ComputeCmd.dispatchWorkgroups
          (List.replicate (2 ^ 32) (0 : ℚ)).length 1 1 := by
  constructor
  · rw [encode_filter_dispatch, dispatch_count_replicate_pow32]
  · intro h
    injection h with h1 h2 h3
    rw [List.length_replicate] at h1
    exact absurd h1.symm (by positivity)

/-- C4, amended: for an input of length `N < 2 ^ 32` the recorded compute
pass binds the pipeline, binds the bind group at index 0, and dispatches
exactly `(N, 1, 1)` workgroups; in general the X count is `N mod 2 ^ 32`
because it is passed as a 32-bit value. -/
theorem dispatch_one_workgroup_per_element (input : List ℚ)
    (h : input.length < 2 ^ 32) :
    (encodeCommands input).filter isDispatchCmd
        = [ComputeCmd.dispatchWorkgroups input.length 1 1] ∧
      (encodeCommands input).filter isSetBindGroupCmd
        = [ComputeCmd.setBindGroup 0] ∧
      ComputeCmd.setPipeline ∈ encodeCommands input := by
  refine ⟨?_, encode_filter_bind_group input, ?_⟩
  · rw [encode_filter_dispatch]
    have hd : dispatchCount input = input.length := Nat.mod_eq_of_lt h
    rw [hd]
  · simp [encodeCommands]

/-- Witness for the amended C4 at the fixed program input of length 4. -/
theorem dispatch_one_workgroup_per_element_witness :
    ([(1 : ℚ), 2, 3, 4]).length < 2 ^ 32 ∧
      ((encodeCommands [1, 2, 3, 4]).filter isDispatchCmd
          = [ComputeCmd.dispatchWorkgroups ([(1 : ℚ), 2, 3, 4]).length 1 1] ∧
        (encodeCommands [1, 2, 3, 4]).filter isSetBindGroupCmd
          = [ComputeCmd.setBindGroup 0] ∧
        ComputeCmd.setPipeline ∈ encodeCommands [(1 : ℚ), 2, 3, 4]) :=
  ⟨by norm_num, dispatch_one_workgroup_per_element [1, 2, 3, 4] (by norm_num)⟩

/-- C5: the device-side copy fails with `SizeMismatch` exactly when the two
buffer byte sizes differ, and on matching sizes it transfers the full
source contents (no truncation or padding); in the program itself the
result buffer is allocated with exactly the storage-buffer size, so the
copy recorded by `run` always succeeds — the failure branch is
unreachable there. -/
theorem copy_to_readback_size_law (src dst : GPUBuffer) (input : List ℚ) :
    (src.size ≠ dst.size →
      copyToReadback src dst = Except.error TransferError.sizeMismatch) ∧
    (src.size = dst.size →
      copyToReadback src dst = Except.ok { dst with contents := src.contents }) ∧
    copyToReadback (runDispatch (dispatchCount input) (uploadedStorage input))
        (mkResultBuffer input)
      = Except.ok { mkResultBuffer input with
          contents :=
            (runDispatch (dispatchCount input) (uploadedStorage input)).contents } := by
  refine ⟨?_, ?_, ?_⟩
  · intro h
    simp [copyToReadback, h]
  · intro h
    simp [copyToReadback, h]
  · simp [copyToReadback, runDispatch, uploadedStorage, writeBuffer,
      mkStorageBuffer, mkResultBuffer]

/-- Witness for C5 at concrete buffers: a mismatched pair fails with
`SizeMismatch`; a matched pair copies the full contents. -/
theorem copy_to_readback_size_law_witness :
    copyToReadback ⟨8, [1, 2]⟩ ⟨4, []⟩ = Except.error TransferError.sizeMismatch ∧
      copyToReadback ⟨8, [1, 2]⟩ ⟨8, []⟩ = Except.ok ⟨8, [1, 2]⟩ :=
  ⟨(copy_to_readback_size_law ⟨8, [1, 2]⟩ ⟨4, []⟩ []).1 (by decide),
    (copy_to_readback_size_law ⟨8, [1, 2]⟩ ⟨8, []⟩ []).2.1 rfl⟩

/-- C6, counterexample: when the map completion callback reports an error,
the read-back step of `run` does not surface `MapFailed` — the callback
only logs the result, and the unconditional `get_mapped_range` call aborts
instead of returning an error value. -/
theorem read_back_ignores_map_error_counterexample :
    readBack (Except.error MapError.deviceLost) ⟨16, [2, 4, 6, 8]⟩
        = ReadOutcome.panic ∧
      readBack (Except.error MapError.deviceLost) ⟨16, [2, 4, 6, 8]⟩
        ≠ ReadOutcome.err TransferError.mapFailed := by
  refine ⟨rfl, ?_⟩
  simp [readBack]

/-- C6, amended: the map completion callback result is never inspected:
on a reported map error the read-back aborts the process at the
`get_mapped_range` call, and for no callback outcome does it return a
`MapFailed` error to the caller. -/
theorem read_back_never_surfaces_map_failed :
    ∀ (e : MapError) (buf : GPUBuffer) (r : Except MapError Unit),
      readBack (Except.error e) buf = ReadOutcome.panic ∧
        readBack r buf ≠ ReadOutcome.err TransferError.mapFailed := by
  intro e buf r
  refine ⟨rfl, ?_⟩
  cases r <;> simp [readBack]

/-- C7: when frame acquisition fails with `SurfaceLost` or
`SurfaceOutdated`, the frame-loop driver reconfigures the surface (one more
device configuration) and retries the acquisition exactly once — the tick
outcome is exactly the outcome of the single retry, so a repeated failure
is reported upward for that tick — and the loop keeps producing one outcome
per tick, so a failed tick never terminates the process. -/
theorem frame_tick_reconfigures_and_retries_once :
    ∀ (app : WgpuAppState) (acq2 : Except SurfaceError Unit),
      frameTick app (Except.error SurfaceError.lost) acq2
          = (reconfigure app).render acq2 ∧
      frameTick app (Except.error SurfaceError.outdated) acq2
          = (reconfigure app).render acq2 ∧
      (reconfigure app).configures = app.configures + 1 ∧
      frameTick app (Except.error SurfaceError.lost)
          (Except.error SurfaceError.lost)
          = (reconfigure app, Except.error SurfaceError.lost) ∧
      ∀ ticks, (runLoop app ticks).2.length = ticks.length := by
  intro app acq2
  refine ⟨rfl, rfl, rfl, rfl, ?_⟩
  intro ticks
  induction ticks generalizing app with
  | nil => rfl
  | cons t rest ih => simp [runLoop, ih]

/-- C8: resize is idempotent on the stored configuration: calling
`resize(w, h)` twice in succession leaves the configuration exactly as one
call leaves it. -/
theorem resize_idempotent_on_config :
    ∀ (app : WgpuAppState) (w h : Nat),
      ((app.resize w h).resize w h).config = (app.resize w h).config := by
  intro app w h
  rfl

/-- C9: every successful render cycle records the same fixed trace: exactly
one render pass, whose color attachment is cleared to the fixed background
color `Color::BLACK`, one draw call of vertices `0..3` and instances
`0..1`, and the pass begins before the draw — no per-frame geometry
variation. -/
theorem render_pass_fixed_clear_and_draw :
    ∀ (app : WgpuAppState) (acq : Except SurfaceError Unit)
      (evts : List RenderEvent),
      (app.render acq).2 = Except.ok evts →
      evts = renderTrace ∧
        evts.countP isBeginPass = 1 ∧
        evts.filter isBeginPass = [RenderEvent.beginPass (LoadOp.clear blackColor)] ∧
        evts.filter isDraw = [RenderEvent.draw 0 3 0 1] ∧
        (evts.takeWhile fun e => !isDraw e).countP isBeginPass = 1 := by
  intro app acq evts h
  cases acq with
  | error e => simp [WgpuAppState.render] at h
  | ok u =>
    simp only [WgpuAppState.render, Except.ok.injEq] at h
    subst h
    refine ⟨rfl, rfl, rfl, rfl, rfl⟩

/-- Witness for C9 at one concrete successful cycle. -/
theorem render_pass_fixed_clear_and_draw_witness :
    renderTrace = renderTrace ∧
      renderTrace.countP isBeginPass = 1 ∧
      renderTrace.filter isBeginPass = [RenderEvent.beginPass (LoadOp.clear blackColor)] ∧
      renderTrace.filter isDraw = [RenderEvent.draw 0 3 0 1] ∧
      (renderTrace.takeWhile fun e => !isDraw e).countP isBeginPass = 1 :=
  render_pass_fixed_clear_and_draw sampleApp (Except.ok ()) renderTrace rfl

/-- C10: when frame acquisition fails, `render` returns that error
immediately: the trace is empty (no encoder, no submission, no
presentation) and the application state is returned unchanged — no field
is mutated. -/
theorem render_error_is_immediate_and_pure :
    ∀ (app : WgpuAppState) (e : SurfaceError),
      app.render (Except.error e) = (app, Except.error e) := by
  intro app e
  rfl
